import Mathlib

/-!
# Verification of `GoogleSearchTool.async_call`
(`custom_components/llm_intents/GoogleSearch.py`)

We shallowly embed the tool's single entry point `async_call` as a pure
function over an environment that records everything the coroutine can
observe: the Home Assistant domain data, the first config entry's options,
the tool arguments, the cache state, and the outcome of the (at most one)
HTTP request.  Machinery that can raise in Python (dictionary `.get` on a
non-dict, list indexing, iteration) is modelled in the `Except String`
monad; the `try`/`except` block of `async_call` is modelled by catching
those errors and converting them to an `{error: ...}` object, while code
before the `try` block propagates its errors to the caller.

JSON values follow Python semantics: `obj` is an association list with
first-match lookup (Python dicts have unique keys), and `truthy` is Python
truthiness.
-/

/-- JSON-like values, as manipulated by the Python code. -/
inductive JSON where
  | null : JSON
  | bool : Bool → JSON
  | num : Int → JSON
  | str : String → JSON
  | arr : List JSON → JSON
  | obj : List (String × JSON) → JSON
  deriving Repr

/-- Python truthiness (`if x:`) of a JSON value. -/
def JSON.truthy : JSON → Bool
  | .null => false
  | .bool b => b
  | .num n => n != 0
  | .str s => s != ""
  | .arr l => !l.isEmpty
  | .obj l => !l.isEmpty

/-- First-match association-list lookup (Python dict access; dict keys are unique). -/
def lookupKey (l : List (String × JSON)) (k : String) : Option JSON :=
  (l.find? (fun p => p.1 == k)).map (·.2)

/-- Whether a JSON object value carries the given key. -/
def JSON.hasKey : JSON → String → Bool
  | .obj l, k => l.any (fun p => p.1 == k)
  | _, _ => false

/-- Python `d.get(k, default)`: `AttributeError` when the receiver is not a dict. -/
def pyGetD : JSON → String → JSON → Except String JSON
  | .obj l, k, d => .ok ((lookupKey l k).getD d)
  | _, _, _ => .error "AttributeError: object has no attribute get"

/-- Python `xs[i]` for a list receiver: `IndexError` past the end,
`TypeError` on non-subscriptable values. -/
def pyIndex : JSON → Nat → Except String JSON
  | .arr l, i =>
    match l.get? i with
    | some v => .ok v
    | none => .error "IndexError: list index out of range"
  | _, _ => .error "TypeError: object is not subscriptable"

/-- Python `for x in xs`: lists yield elements, strings yield one-character
strings, dicts yield their keys; other values raise `TypeError`. -/
def pyIter : JSON → Except String (List JSON)
  | .arr l => .ok l
  | .str s => .ok (s.data.map (fun c => .str (String.mk [c])))
  | .obj l => .ok (l.map (fun p => .str p.1))
  | _ => .error "TypeError: object is not iterable"

/-- Python `d[k] = v` on a dict: overwrite in place, or append a new binding. -/
def setKey (l : List (String × JSON)) (k : String) (v : JSON) : List (String × JSON) :=
  if l.any (fun p => p.1 == k) then l.map (fun p => if p.1 == k then (k, v) else p)
  else l ++ [(k, v)]

/-! ## Cache key derivation (CacheGateway)

The `SQLiteCache` class lives in `cache.py`, which is not part of the
sources given to us; only its call sites in `GoogleSearch.py` are. -/

/-- Two strings with the same character data are equal. -/
theorem string_data_inj {s t : String} (h : s.data = t.data) : s = t := by
  cases s
  cases t
  exact congrArg String.mk h

/-- Order on parameter pairs: lexicographic on (key, value), comparing the
strings by their character lists. Used to canonicalize parameter order
before serializing. -/
def pairLe (a b : String × String) : Prop :=
  a.1.data < b.1.data ∨ (a.1.data = b.1.data ∧ a.2.data ≤ b.2.data)

instance : DecidableRel pairLe := fun a b => by
  unfold pairLe; infer_instance

instance : IsTotal (String × String) pairLe := by
  constructor
  intro a b
  rcases lt_trichotomy a.1.data b.1.data with h | h | h
  · exact Or.inl (Or.inl h)
  · rcases le_total a.2.data b.2.data with h2 | h2
    · exact Or.inl (Or.inr ⟨h, h2⟩)
    · exact Or.inr (Or.inr ⟨h.symm, h2⟩)
  · exact Or.inr (Or.inl h)

instance : IsTrans (String × String) pairLe := by
  constructor
  intro a b c hab hbc
  rcases hab with h1 | ⟨h1, h1v⟩
  · rcases hbc with h2 | ⟨h2, _⟩
    · exact Or.inl (h1.trans h2)
    · exact Or.inl (h2 ▸ h1)
  · rcases hbc with h2 | ⟨h2, h2v⟩
    · exact Or.inl (h1 ▸ h2)
    · exact Or.inr ⟨h1.trans h2, h1v.trans h2v⟩

instance : IsAntisymm (String × String) pairLe := by
  constructor
  intro a b hab hba
  rcases hab with h1 | ⟨h1, h1v⟩
  · rcases hba with h2 | ⟨h2, _⟩
    · exact absurd (h1.trans h2) (lt_irrefl _)
    · exact absurd h1 (h2 ▸ lt_irrefl _)
  · rcases hba with h2 | ⟨_, h2v⟩
    · exact absurd h2 (h1 ▸ lt_irrefl _)
    · exact Prod.ext (string_data_inj h1) (string_data_inj (le_antisymm h1v h2v))

/-- Modelled from the spec: `cache.py` (the `SQLiteCache` key derivation) is
not among the given sources.  Per §4.1, the key "concatenate[s] namespace
with a canonical serialization of params (stable key ordering, stable value
formatting)": we sort the parameter pairs and serialize them. -/
def deriveKey (ns : String) (params : List (String × String)) : String :=
  ns ++ "|" ++
    (List.insertionSort pairLe params).foldr
      (fun kv acc => kv.1 ++ "=" ++ kv.2 ++ ";" ++ acc) ""

/-- Cache contents: storage key ↦ stored JSON value. -/
abbrev CacheState := List (String × JSON)

/-- Modelled from the spec: `SQLiteCache.get` (§4.1) — deterministic keyed
lookup returning `value | absent`. -/
def cacheGet (c : CacheState) (ns : String) (params : List (String × String)) : Option JSON :=
  (List.find? (fun p => p.1 == deriveKey ns params) c).map (·.2)

/-- Modelled from the spec: `SQLiteCache.set` (§4.1) — overwrites any
existing entry for the same key (first-match lookup, so prepending
overwrites). -/
def cacheSet (c : CacheState) (ns : String) (params : List (String × String)) (v : JSON) :
    CacheState :=
  (deriveKey ns params, v) :: c

/-! ## The tool's fixed strings -/

/-- `GoogleSearchTool.response_instruction` (the fixed response-formatting
instruction attached by `wrap_response`). -/
def responseInstruction : String :=
  "\n    Используй результаты поиска и текущую дату из системного промпта. \n    Если пользователь спросил \"через сколько дней/месяцев\", ты ОБЯЗАНА сама вычислить разницу, \n    основываясь на сегодняшнем числе.\n\n    ТВОЯ ЗАДАЧА:\n    Отвечать живым, естественным языком (лирика и комментарии разрешены), НО с хирургической точностью к фактам.\n\n    СТРОГИЕ ПРАВИЛА ОБРАБОТКИ ФАКТОВ:\n    1. ИЗОЛЯЦИЯ ЛОКАЦИЙ (Самое важное): Если в тексте упомянуто несколько мест (например, Индия, Казахстан, Камчатка), ты обязана перечислить их ОТДЕЛЬНО.\n       - ЗАПРЕЩЕНО смешивать данные: Нельзя писать \"В Казахстане и на Камчатке были толчки до 5 баллов\", если 5 баллов было только на Камчатке.\n       - Правильно: \"В Казахстане — 4.2. А вот на Камчатке — до 5.0\".\n    \n    2. ЗАПРЕТ НА \"КРАЖУ\" ЦИФР: Никогда не приписывай магнитуду или дату одного события другому. Проверяй каждое число: к какому городу оно относится в исходнике?\n    \n    3. ГЕОГРАФИЯ: Не меняй названия мест. Если написано \"Южная Атлантика\", не пиши \"Америка\".\n\n    Итог: Говори красиво, но цифры и города раскладывай строго по полочкам, не смешивая их.\n    "

/-- The module `__name__` used as the cache namespace. -/
def namespaceName : String := "custom_components.llm_intents.GoogleSearch"

/-- `CONF_GOOGLE_SEARCH_API_KEY` configuration key. -/
def confApiKey : String := "google_search_api_key"

/-- `CONF_GOOGLE_SEARCH_MODEL` configuration key. -/
def confModel : String := "google_search_model"

/-- Default model identifier (line 73). -/
def defaultModel : String := "gemini-2.0-flash-exp"

/-- No-information message returned for an empty candidate list (line 116). -/
def noInfoCandidates : String := "Информация не найдена."

/-- No-information message returned when both text and sources are empty (line 139). -/
def noInfoEmpty : String := "No information found."

/-- Error message for a missing API key (line 77). -/
def apiKeyError : String := "Google Search API key not configured"

/-- The blanket `except` handler's message format (line 151). -/
def googleErrMsg (e : String) : String := "An error occurred during search: " ++ e

/-- `wrap_response` (lines 55–57): `response["instruction"] = self.response_instruction`.
Item assignment on a non-dict raises `TypeError`. -/
def wrapResponse : JSON → Except String JSON
  | .obj l => .ok (.obj (setKey l "instruction" (.str responseInstruction)))
  | _ => .error "TypeError: object does not support item assignment"

/-! ## The environment of one invocation -/

/-- Outcome of the single HTTP POST: either the request raises (network
failure, timeout), or a response arrives with a status code, a body text
(read by `resp.text()`), and a body-JSON parse outcome (`resp.json()`,
which raises on malformed JSON). -/
inductive HttpOutcome where
  | raises : String → HttpOutcome
  | responds : Nat → String → Except String JSON → HttpOutcome

/-- Everything one invocation of `async_call` can observe. -/
structure Env where
  /-- `hass.data[DOMAIN].get("config", {})`; `none` models `hass.data[DOMAIN]`
  raising `KeyError`. -/
  domainConfig : Option (List (String × String))
  /-- The first config entry's `options`; `none` models
  `next(iter(...))` raising `StopIteration` (no config entries). -/
  entryOptions : Option (List (String × String))
  /-- `tool_input.tool_args`. -/
  toolArgs : List (String × String)
  /-- `some m` models the cache layer raising inside the `try` block
  (e.g. `SQLiteCache()` construction or `get` failing). -/
  cacheRaises : Option String
  /-- The persistent cache contents at call time. -/
  cache : CacheState
  /-- The HTTP transport's behaviour for this invocation's single request. -/
  http : HttpOutcome

/-- First-match lookup in a string-valued mapping. -/
def lookupStr (l : List (String × String)) (k : String) : Option String :=
  (l.find? (fun p => p.1 == k)).map (·.2)

/-- Observable outcome of one invocation: the returned value (`Except.error`
means an exception escaped `async_call` to its caller), whether the HTTP
request was made, how many cache lookups and writes happened, and the cache
state afterwards. -/
structure CallOutcome where
  result : Except String JSON
  httpCalled : Bool
  cacheLookups : Nat
  cacheWrites : Nat
  cacheAfter : CacheState
  deriving Repr

/-! ## Response parsing (lines 111–147) -/

/-- `candidate.get("content", {}).get("parts", [{}])[0].get("text", "")`
(lines 119–121). -/
def extractContent (candidate : JSON) : Except String JSON :=
  match pyGetD candidate "content" (.obj []) with
  | .error e => .error e
  | .ok content =>
    match pyGetD content "parts" (.arr [.obj []]) with
    | .error e => .error e
    | .ok parts =>
      match pyIndex parts 0 with
      | .error e => .error e
      | .ok part0 => pyGetD part0 "text" (.str "")

/-- The `for attr in attributions` loop (lines 128–136): for each
attribution, take `attr.get("web", {})`; when truthy, emit
`{"title": web.get("title"), "url": web.get("uri")}`. -/
def collectSources : List JSON → Except String (List JSON)
  | [] => .ok []
  | attr :: rest =>
    match pyGetD attr "web" (.obj []) with
    | .error e => .error e
    | .ok web =>
      if web.truthy then
        match pyGetD web "title" .null with
        | .error e => .error e
        | .ok t =>
          match pyGetD web "uri" .null with
          | .error e => .error e
          | .ok u =>
            match collectSources rest with
            | .error e => .error e
            | .ok tail => .ok (.obj [("title", t), ("url", u)] :: tail)
      else
        collectSources rest

/-- Result of parsing a 200-status body: either an early no-information
return (not cached, not wrapped) or a success object (cached then wrapped). -/
inductive ParseResult where
  | noInfo : JSON → ParseResult
  | success : JSON → ParseResult
  deriving Repr

/-- Lines 114–144: candidate extraction, content extraction, source
collection, the empty-result guard, and the response object. -/
def parseBody (data : JSON) : Except String ParseResult :=
  match pyGetD data "candidates" (.arr []) with
  | .error e => .error e
  | .ok candidates =>
    if !candidates.truthy then
      .ok (.noInfo (.obj [("results", .str noInfoCandidates)]))
    else
      match pyIndex candidates 0 with
      | .error e => .error e
      | .ok candidate =>
        match extractContent candidate with
        | .error e => .error e
        | .ok contentVal =>
          match pyGetD candidate "groundingMetadata" (.obj []) with
          | .error e => .error e
          | .ok metadata =>
            match pyGetD metadata "groundingAttributions" (.arr []) with
            | .error e => .error e
            | .ok attributionsJ =>
              match pyIter attributionsJ with
              | .error e => .error e
              | .ok attrs =>
                match collectSources attrs with
                | .error e => .error e
                | .ok sources =>
                  if !contentVal.truthy && sources.isEmpty then
                    .ok (.noInfo (.obj [("results", .str noInfoEmpty)]))
                  else
                    .ok (.success (.obj [("answer_summary", contentVal),
                                         ("sources", .arr (sources.take 3))]))

/-! ## The invocation pipeline -/

/-- The `if cached_response:` test (line 101): a hit is a present **and
truthy** cached value. -/
def hitVal (c : CacheState) (m q : String) : Option JSON :=
  match cacheGet c namespaceName [("model", m), ("query", q)] with
  | some v => if v.truthy then some v else none
  | none => none

/-- The HTTP part of the `try` block (lines 104–147): status check, body
parse, cache store, wrap.  Returns (in-flight result, cache writes, cache
after); an `Except.error` here is an exception still to be caught by the
blanket handler. -/
def doHttp (env : Env) (modelName query : String) :
    Except String JSON × Nat × CacheState :=
  match env.http with
  | .raises m => (.error m, 0, env.cache)
  | .responds status _text body =>
    if status != 200 then
      (.ok (.obj [("error", .str ("Search error: status " ++ toString status))]), 0, env.cache)
    else
      match (match body with | .error e => .error e | .ok data => parseBody data :
             Except String ParseResult) with
      | .error e => (.error e, 0, env.cache)
      | .ok (.noInfo j) => (.ok j, 0, env.cache)
      | .ok (.success resp) =>
        let c' := cacheSet env.cache namespaceName [("model", modelName), ("query", query)] resp
        match wrapResponse resp with
        | .ok w => (.ok w, 1, c')
        | .error e => (.error e, 1, c')

/-- The whole `try`/`except` block (lines 95–151): cache construction and
lookup, the hit short-circuit, the HTTP call, and the blanket handler that
converts any in-flight exception to `{"error": ...}`. -/
def runTry (env : Env) (modelName query : String) : CallOutcome :=
  match env.cacheRaises with
  | some m =>
    { result := .ok (.obj [("error", .str (googleErrMsg m))]),
      httpCalled := false, cacheLookups := 0, cacheWrites := 0, cacheAfter := env.cache }
  | none =>
    match hitVal env.cache modelName query with
    | some v =>
      match wrapResponse v with
      | .ok w =>
        { result := .ok w, httpCalled := false,
          cacheLookups := 1, cacheWrites := 0, cacheAfter := env.cache }
      | .error e =>
        { result := .ok (.obj [("error", .str (googleErrMsg e))]), httpCalled := false,
          cacheLookups := 1, cacheWrites := 0, cacheAfter := env.cache }
    | none =>
      match doHttp env modelName query with
      | (.ok j, w, c') =>
        { result := .ok j, httpCalled := true,
          cacheLookups := 1, cacheWrites := w, cacheAfter := c' }
      | (.error e, w, c') =>
        { result := .ok (.obj [("error", .str (googleErrMsg e))]), httpCalled := true,
          cacheLookups := 1, cacheWrites := w, cacheAfter := c' }

/-- `GoogleSearchTool.async_call` (lines 59–151).  Code before the `try`
block — reading `hass.data[DOMAIN]`, taking the first config entry, and
extracting `tool_args["query"]` — propagates its exceptions
(`Except.error`); the API-key check returns an error object directly; the
rest runs inside the `try` block. -/
def asyncCall (env : Env) : CallOutcome :=
  match env.domainConfig with
  | none =>
    { result := .error "KeyError: DOMAIN not in hass.data", httpCalled := false,
      cacheLookups := 0, cacheWrites := 0, cacheAfter := env.cache }
  | some baseConfig =>
    match env.entryOptions with
    | none =>
      { result := .error "StopIteration: no config entries", httpCalled := false,
        cacheLookups := 0, cacheWrites := 0, cacheAfter := env.cache }
    | some opts =>
      match lookupStr env.toolArgs "query" with
      | none =>
        { result := .error "KeyError: query", httpCalled := false,
          cacheLookups := 0, cacheWrites := 0, cacheAfter := env.cache }
      | some query =>
        let configData := opts ++ baseConfig
        let apiKey := lookupStr configData confApiKey
        let modelName := (lookupStr configData confModel).getD defaultModel
        if (apiKey.getD "") == "" then
          { result := .ok (.obj [("error", .str apiKeyError)]), httpCalled := false,
            cacheLookups := 0, cacheWrites := 0, cacheAfter := env.cache }
        else
          runTry env modelName query

/-! ## Result shapes (the ToolResult contract, spec §3) -/

/-- The failure shape `{"error": s}`. -/
def isErrorShape (j : JSON) : Prop := ∃ s, j = .obj [("error", JSON.str s)]

/-- The no-information shape `{"results": s}`. -/
def isResultsShape (j : JSON) : Prop := ∃ s, j = .obj [("results", JSON.str s)]

/-- The success shape `{"answer_summary": a, "sources": srcs}` as stored in
the cache (before wrapping). -/
def isSummaryShape (j : JSON) : Prop :=
  ∃ a srcs, j = .obj [("answer_summary", a), ("sources", JSON.arr srcs)]

/-- The wrapped success shape: the summary shape with the fixed
`instruction` field appended by `wrap_response`. -/
def isWrappedSummary (j : JSON) : Prop :=
  ∃ a srcs, j = .obj [("answer_summary", a), ("sources", JSON.arr srcs),
                      ("instruction", JSON.str responseInstruction)]

/-- A well-formed ToolResult: one of the three contract shapes, the success
shape possibly carrying the wrapping `instruction` field. -/
def wellFormedToolResult (j : JSON) : Prop :=
  isErrorShape j ∨ isResultsShape j ∨ isSummaryShape j ∨ isWrappedSummary j

/-! ## Spec-side citation extraction (for the refinement claim C7) -/

/-- One attribution's citation, as the spec words it: an attribution
carrying a (non-empty) web sub-object yields `{title, url}` from the web
object's `title`/`uri` fields, a missing field rendered absent (null);
anything else yields no citation. -/
def citeOf (attr : JSON) : Option JSON :=
  match attr with
  | .obj l =>
    match lookupKey l "web" with
    | some (.obj w) =>
      if w.isEmpty then none
      else some (.obj [("title", (lookupKey w "title").getD .null),
                       ("url", (lookupKey w "uri").getD .null)])
    | _ => none
  | _ => none

/-- The citation sequence as the spec words it: map attributions to
citations in the API's original order and truncate to at most 3. -/
def citationsSpec (attrs : List JSON) : List JSON :=
  (attrs.filterMap citeOf).take 3

/-- Well-formed attribution entry: a dict whose `web` field, when present,
is itself a dict. -/
def wfAttr (attr : JSON) : Prop :=
  ∃ l, attr = .obj l ∧ ∀ w, lookupKey l "web" = some w → ∃ wl, w = .obj wl

/-! ## Reduction lemmas for the pipeline -/

theorem asyncCall_eq_runTry (env : Env) (bc opts : List (String × String)) (q : String)
    (hd : env.domainConfig = some bc) (he : env.entryOptions = some opts)
    (hq : lookupStr env.toolArgs "query" = some q)
    (hk : (lookupStr (opts ++ bc) confApiKey).getD "" ≠ "") :
    asyncCall env = runTry env ((lookupStr (opts ++ bc) confModel).getD defaultModel) q := by
  unfold asyncCall
  rw [hd, he, hq]
  simp only [beq_iff_eq]
  rw [if_neg hk]

theorem asyncCall_noKey (env : Env) (bc opts : List (String × String)) (q : String)
    (hd : env.domainConfig = some bc) (he : env.entryOptions = some opts)
    (hq : lookupStr env.toolArgs "query" = some q)
    (hk : (lookupStr (opts ++ bc) confApiKey).getD "" = "") :
    asyncCall env =
      { result := .ok (.obj [("error", .str apiKeyError)]), httpCalled := false,
        cacheLookups := 0, cacheWrites := 0, cacheAfter := env.cache } := by
  unfold asyncCall
  rw [hd, he, hq]
  simp only [beq_iff_eq]
  rw [if_pos hk]

theorem runTry_cacheRaises (env : Env) (m q msg : String) (h : env.cacheRaises = some msg) :
    runTry env m q =
      { result := .ok (.obj [("error", .str (googleErrMsg msg))]), httpCalled := false,
        cacheLookups := 0, cacheWrites := 0, cacheAfter := env.cache } := by
  unfold runTry
  rw [h]

theorem hitVal_some (c : CacheState) (m q : String) (v : JSON)
    (hget : cacheGet c namespaceName [("model", m), ("query", q)] = some v)
    (ht : v.truthy = true) : hitVal c m q = some v := by
  unfold hitVal
  rw [hget]
  simp [ht]

theorem runTry_hit (env : Env) (m q : String) (l : List (String × JSON))
    (hcr : env.cacheRaises = none) (hhit : hitVal env.cache m q = some (.obj l)) :
    runTry env m q =
      { result := .ok (.obj (setKey l "instruction" (.str responseInstruction))),
        httpCalled := false, cacheLookups := 1, cacheWrites := 0, cacheAfter := env.cache } := by
  unfold runTry
  rw [hcr, hhit]
  rfl

theorem runTry_miss_raises (env : Env) (m q msg : String)
    (hcr : env.cacheRaises = none) (hmiss : hitVal env.cache m q = none)
    (hh : env.http = .raises msg) :
    runTry env m q =
      { result := .ok (.obj [("error", .str (googleErrMsg msg))]), httpCalled := true,
        cacheLookups := 1, cacheWrites := 0, cacheAfter := env.cache } := by
  unfold runTry doHttp
  rw [hcr, hmiss, hh]

theorem runTry_miss_status (env : Env) (m q t : String) (c : Nat) (b : Except String JSON)
    (hcr : env.cacheRaises = none) (hmiss : hitVal env.cache m q = none)
    (hh : env.http = .responds c t b) (hc : c ≠ 200) :
    runTry env m q =
      { result := .ok (.obj [("error", .str ("Search error: status " ++ toString c))]),
        httpCalled := true, cacheLookups := 1, cacheWrites := 0, cacheAfter := env.cache } := by
  unfold runTry doHttp
  rw [hcr, hmiss, hh]
  simp [hc]

theorem runTry_miss_200_jsonError (env : Env) (m q t msg : String)
    (hcr : env.cacheRaises = none) (hmiss : hitVal env.cache m q = none)
    (hh : env.http = .responds 200 t (.error msg)) :
    runTry env m q =
      { result := .ok (.obj [("error", .str (googleErrMsg msg))]), httpCalled := true,
        cacheLookups := 1, cacheWrites := 0, cacheAfter := env.cache } := by
  unfold runTry doHttp
  rw [hcr, hmiss, hh]
  rfl

theorem runTry_miss_200_parseError (env : Env) (m q t msg : String) (data : JSON)
    (hcr : env.cacheRaises = none) (hmiss : hitVal env.cache m q = none)
    (hh : env.http = .responds 200 t (.ok data)) (hp : parseBody data = .error msg) :
    runTry env m q =
      { result := .ok (.obj [("error", .str (googleErrMsg msg))]), httpCalled := true,
        cacheLookups := 1, cacheWrites := 0, cacheAfter := env.cache } := by
  unfold runTry doHttp
  rw [hcr, hmiss, hh]
  simp [hp]

theorem runTry_miss_200_noInfo (env : Env) (m q t : String) (data j : JSON)
    (hcr : env.cacheRaises = none) (hmiss : hitVal env.cache m q = none)
    (hh : env.http = .responds 200 t (.ok data)) (hp : parseBody data = .ok (.noInfo j)) :
    runTry env m q =
      { result := .ok j, httpCalled := true,
        cacheLookups := 1, cacheWrites := 0, cacheAfter := env.cache } := by
  unfold runTry doHttp
  rw [hcr, hmiss, hh]
  simp [hp]

theorem runTry_miss_200_success (env : Env) (m q t : String) (data : JSON)
    (l : List (String × JSON))
    (hcr : env.cacheRaises = none) (hmiss : hitVal env.cache m q = none)
    (hh : env.http = .responds 200 t (.ok data))
    (hp : parseBody data = .ok (.success (.obj l))) :
    runTry env m q =
      { result := .ok (.obj (setKey l "instruction" (.str responseInstruction))),
        httpCalled := true, cacheLookups := 1, cacheWrites := 1,
        cacheAfter := cacheSet env.cache namespaceName [("model", m), ("query", q)] (.obj l) } := by
  unfold runTry doHttp
  rw [hcr, hmiss, hh]
  simp [hp, wrapResponse]

/-- Every successfully parsed body is either a `{results: ...}` no-info
value or an `{answer_summary, sources}` success value. -/
theorem parseBody_ok_shapes (data : JSON) (r : ParseResult) (h : parseBody data = .ok r) :
    (∃ s, r = .noInfo (.obj [("results", JSON.str s)])) ∨
    (∃ a srcs, r = .success (.obj [("answer_summary", a), ("sources", JSON.arr srcs)])) := by
  unfold parseBody at h
  repeat' split at h
  all_goals cases h
  all_goals first
    | exact Or.inl ⟨_, rfl⟩
    | exact Or.inr ⟨_, _, rfl⟩

/-- Under well-formed attributions (dicts whose `web` field, when present,
is a dict), the source-collection loop computes exactly the spec-side
citation list, before truncation. -/
theorem collectSources_wf (attrs : List JSON) (hwf : ∀ a ∈ attrs, wfAttr a) :
    collectSources attrs = .ok (attrs.filterMap citeOf) := by
  induction attrs with
  | nil => rfl
  | cons attr rest ih =>
    have ihr := ih (fun a ha => hwf a (List.mem_cons_of_mem _ ha))
    obtain ⟨l, rfl, hweb⟩ := hwf attr (List.mem_cons_self _ _)
    unfold collectSources
    cases hw : lookupKey l "web" with
    | none =>
      simp only [pyGetD, hw, Option.getD_none]
      rw [if_neg (by simp [JSON.truthy])]
      rw [ihr]
      simp [List.filterMap_cons, citeOf, hw]
    | some w =>
      obtain ⟨wl, rfl⟩ := hweb w hw
      cases wl with
      | nil =>
        simp only [pyGetD, hw, Option.getD_some]
        rw [if_neg (by simp [JSON.truthy])]
        rw [ihr]
        simp [List.filterMap_cons, citeOf, hw]
      | cons p wl' =>
        simp only [pyGetD, hw, Option.getD_some]
        rw [if_pos (by simp [JSON.truthy])]
        rw [ihr]
        simp [List.filterMap_cons, citeOf, hw]

/-- Read a key from a JSON object value (`none` on non-objects). -/
def JSON.getKey? : JSON → String → Option JSON
  | .obj l, k => lookupKey l k
  | _, _ => none

/-- The fixed response instruction is non-empty text. -/
theorem responseInstruction_ne_empty : responseInstruction ≠ "" := by decide

/-- A well-configured environment for concrete runs: domain data holding an
API key, one config entry with empty options, and a `query` tool argument. -/
def mkEnv (cache : CacheState) (http : HttpOutcome) : Env :=
  { domainConfig := some [(confApiKey, "key123")], entryOptions := some [],
    toolArgs := [("query", "qtest")], cacheRaises := none, cache := cache, http := http }

/-! ## Claims -/

/-- Claim C4: if the configured apiKey is absent or empty, `async_call`
returns an `{error: ...}` object immediately: no HTTP call, no cache
lookup, no cache write, and the cache is unchanged. -/
theorem c4_missing_api_key_short_circuit (env : Env) (bc opts : List (String × String))
    (q : String)
    (hd : env.domainConfig = some bc) (he : env.entryOptions = some opts)
    (hq : lookupStr env.toolArgs "query" = some q)
    (hk : lookupStr (opts ++ bc) confApiKey = none ∨
          lookupStr (opts ++ bc) confApiKey = some "") :
    (asyncCall env).result = .ok (.obj [("error", .str apiKeyError)]) ∧
    (asyncCall env).httpCalled = false ∧
    (asyncCall env).cacheLookups = 0 ∧
    (asyncCall env).cacheWrites = 0 ∧
    (asyncCall env).cacheAfter = env.cache := by
  have h : (lookupStr (opts ++ bc) confApiKey).getD "" = "" := by
    rcases hk with h | h <;> simp [h]
  rw [asyncCall_noKey env bc opts q hd he hq h]
  exact ⟨rfl, rfl, rfl, rfl, rfl⟩

/-- Environment with an empty apiKey and an unreachable network. -/
def envNoKey : Env :=
  { domainConfig := some [(confApiKey, "")], entryOptions := some [],
    toolArgs := [("query", "anything")], cacheRaises := none,
    cache := [], http := .raises "unreachable" }

/-- Witness for C4: a concrete invocation with an empty apiKey. -/
theorem c4_missing_api_key_short_circuit_witness :
    (asyncCall envNoKey).result = .ok (.obj [("error", .str apiKeyError)]) ∧
    (asyncCall envNoKey).httpCalled = false ∧
    (asyncCall envNoKey).cacheLookups = 0 :=
  have h := c4_missing_api_key_short_circuit envNoKey [(confApiKey, "")] [] "anything"
    rfl rfl rfl (Or.inr rfl)
  ⟨h.1, h.2.1, h.2.2.1⟩

/-- Claim C10: the success branch requires HTTP status exactly 200; any other
status — other success-class codes included — yields exactly the
`{error: "Search error: status c"}` shape. -/
theorem c10_success_requires_exactly_200 (env : Env) (bc opts : List (String × String))
    (q t : String) (c : Nat) (b : Except String JSON)
    (hd : env.domainConfig = some bc) (he : env.entryOptions = some opts)
    (hq : lookupStr env.toolArgs "query" = some q)
    (hk : (lookupStr (opts ++ bc) confApiKey).getD "" ≠ "")
    (hcr : env.cacheRaises = none)
    (hmiss : hitVal env.cache ((lookupStr (opts ++ bc) confModel).getD defaultModel) q = none)
    (hh : env.http = .responds c t b) (hc : c ≠ 200) :
    (asyncCall env).result =
      .ok (.obj [("error", .str ("Search error: status " ++ toString c))]) := by
  rw [asyncCall_eq_runTry env bc opts q hd he hq hk,
      runTry_miss_status env _ q t c b hcr hmiss hh hc]

/-- Witness for C10: a 201 response yields the status-error shape. -/
theorem c10_success_requires_exactly_200_witness :
    (asyncCall (mkEnv [] (.responds 201 "created" (.ok .null)))).result =
      .ok (.obj [("error", .str ("Search error: status " ++ toString (201 : Nat)))]) :=
  c10_success_requires_exactly_200 _ [(confApiKey, "key123")] [] "qtest" "created" 201
    (.ok .null) rfl rfl rfl (by decide) rfl rfl rfl (by decide)

/-- Claim C5: every non-success (non-2xx) HTTP status `c` yields exactly
`{error: "Search error: status c"}`; the payload is that fixed string
alone, so the raw upstream body never appears in it. -/
theorem c5_non_success_status_error_shape (env : Env) (bc opts : List (String × String))
    (q t : String) (c : Nat) (b : Except String JSON)
    (hd : env.domainConfig = some bc) (he : env.entryOptions = some opts)
    (hq : lookupStr env.toolArgs "query" = some q)
    (hk : (lookupStr (opts ++ bc) confApiKey).getD "" ≠ "")
    (hcr : env.cacheRaises = none)
    (hmiss : hitVal env.cache ((lookupStr (opts ++ bc) confModel).getD defaultModel) q = none)
    (hh : env.http = .responds c t b) (hc : c < 200 ∨ 300 ≤ c) :
    (asyncCall env).result =
      .ok (.obj [("error", .str ("Search error: status " ++ toString c))]) := by
  have hne : c ≠ 200 := by
    rcases hc with h | h <;> omega
  rw [asyncCall_eq_runTry env bc opts q hd he hq hk,
      runTry_miss_status env _ q t c b hcr hmiss hh hne]

/-- Witness for C5: a 500 response with an opaque body yields exactly the
status-error shape. -/
theorem c5_non_success_status_error_shape_witness :
    (asyncCall (mkEnv [] (.responds 500 "opaque upstream body" (.ok .null)))).result =
      .ok (.obj [("error", .str ("Search error: status " ++ toString (500 : Nat)))]) :=
  c5_non_success_status_error_shape _ [(confApiKey, "key123")] [] "qtest"
    "opaque upstream body" 500 (.ok .null) rfl rfl rfl (by decide) rfl rfl rfl
    (Or.inr (by omega))

/-- Claim C6: a 200 response whose candidates list is absent or empty yields
the no-information shape `{results: ...}`. -/
theorem c6_empty_candidates_no_info (env : Env) (bc opts : List (String × String))
    (q t : String) (kvs : List (String × JSON))
    (hd : env.domainConfig = some bc) (he : env.entryOptions = some opts)
    (hq : lookupStr env.toolArgs "query" = some q)
    (hk : (lookupStr (opts ++ bc) confApiKey).getD "" ≠ "")
    (hcr : env.cacheRaises = none)
    (hmiss : hitVal env.cache ((lookupStr (opts ++ bc) confModel).getD defaultModel) q = none)
    (hh : env.http = .responds 200 t (.ok (.obj kvs)))
    (hcand : lookupKey kvs "candidates" = none ∨
             lookupKey kvs "candidates" = some (.arr [])) :
    (asyncCall env).result = .ok (.obj [("results", .str noInfoCandidates)]) := by
  have hp : parseBody (.obj kvs) = .ok (.noInfo (.obj [("results", .str noInfoCandidates)])) := by
    unfold parseBody
    rcases hcand with h | h <;> simp [pyGetD, h, JSON.truthy]
  rw [asyncCall_eq_runTry env bc opts q hd he hq hk,
      runTry_miss_200_noInfo env _ q t (.obj kvs) _ hcr hmiss hh hp]

/-- Witness for C6: a concrete 200 response with `candidates: []`. -/
theorem c6_empty_candidates_no_info_witness :
    (asyncCall (mkEnv [] (.responds 200 ""
        (.ok (.obj [("candidates", .arr [])]))))).result =
      .ok (.obj [("results", .str noInfoCandidates)]) :=
  c6_empty_candidates_no_info _ [(confApiKey, "key123")] [] "qtest" ""
    [("candidates", .arr [])] rfl rfl rfl (by decide) rfl rfl rfl (Or.inr rfl)

/-- Claim C3: if the cache holds the cached answer/citations entry for the
key built from (model, query), `async_call` returns that entry wrapped
with the instruction field and performs no external HTTP request — hence
at most one external request per distinct (model, query) while cached. -/
theorem c3_cache_hit_no_http (env : Env) (bc opts : List (String × String))
    (q : String) (a : JSON) (srcs : List JSON)
    (hd : env.domainConfig = some bc) (he : env.entryOptions = some opts)
    (hq : lookupStr env.toolArgs "query" = some q)
    (hk : (lookupStr (opts ++ bc) confApiKey).getD "" ≠ "")
    (hcr : env.cacheRaises = none)
    (hget : cacheGet env.cache namespaceName
        [("model", (lookupStr (opts ++ bc) confModel).getD defaultModel), ("query", q)] =
        some (.obj [("answer_summary", a), ("sources", JSON.arr srcs)])) :
    (asyncCall env).result =
      .ok (.obj [("answer_summary", a), ("sources", JSON.arr srcs),
                 ("instruction", .str responseInstruction)]) ∧
    (asyncCall env).httpCalled = false := by
  have hhit := hitVal_some env.cache _ q _ hget rfl
  rw [asyncCall_eq_runTry env bc opts q hd he hq hk,
      runTry_hit env _ q _ hcr hhit]
  constructor
  · show Except.ok (JSON.obj (setKey _ "instruction" _)) = _
    simp [setKey, lookupKey]
  · rfl

/-- Environment whose cache already holds a stored result for the default
model and the query `"qtest"`, with an unreachable network. -/
def envHit : Env :=
  mkEnv [(deriveKey namespaceName [("model", defaultModel), ("query", "qtest")],
          .obj [("answer_summary", .str "cached answer"),
                ("sources", .arr [.obj [("title", .str "t"), ("url", .str "u")]])])]
    (.raises "unreachable")

/-- Witness for C3: the cached entry is returned wrapped, no HTTP call. -/
theorem c3_cache_hit_no_http_witness :
    (asyncCall envHit).result =
      .ok (.obj [("answer_summary", .str "cached answer"),
                 ("sources", .arr [.obj [("title", .str "t"), ("url", .str "u")]]),
                 ("instruction", .str responseInstruction)]) ∧
    (asyncCall envHit).httpCalled = false :=
  c3_cache_hit_no_http envHit [(confApiKey, "key123")] [] "qtest" (.str "cached answer")
    [.obj [("title", .str "t"), ("url", .str "u")]] rfl rfl rfl (by decide) rfl (by rfl)

/-- Claim C9: the derived cache key is invariant under reordering of the
parameter mapping: same key/value pairs in any insertion order give the
same key, so identical (model, query) always address the same cache entry. -/
theorem c9_deriveKey_order_invariant (N : String) (P Pp : List (String × String))
    (h : P.Perm Pp) : deriveKey N P = deriveKey N Pp := by
  unfold deriveKey
  have e : List.insertionSort pairLe P = List.insertionSort pairLe Pp :=
    List.eq_of_perm_of_sorted
      (((List.perm_insertionSort pairLe P).trans h).trans
        (List.perm_insertionSort pairLe Pp).symm)
      (List.sorted_insertionSort pairLe P) (List.sorted_insertionSort pairLe Pp)
  rw [e]

/-- Witness for C9: the concrete (model, query) mapping in its two
insertion orders derives the same key. -/
theorem c9_deriveKey_order_invariant_witness :
    deriveKey namespaceName [("model", "m1"), ("query", "q1")] =
      deriveKey namespaceName [("query", "q1"), ("model", "m1")] :=
  c9_deriveKey_order_invariant namespaceName _ _
    (List.Perm.swap ("query", "q1") ("model", "m1") [])

/-- Claim C7: on a successful parse, the returned sources list is exactly the
spec-side citation sequence: attributions carrying a web sub-object mapped
to {title, url} in original order (missing fields rendered null, the entry
never dropped), truncated to at most 3. -/
theorem c7_sources_are_spec_citations (env : Env) (bc opts : List (String × String))
    (q t : String) (kvs : List (String × JSON)) (cand : JSON) (rest : List JSON)
    (cv md : JSON) (attrs : List JSON)
    (hd : env.domainConfig = some bc) (he : env.entryOptions = some opts)
    (hq : lookupStr env.toolArgs "query" = some q)
    (hk : (lookupStr (opts ++ bc) confApiKey).getD "" ≠ "")
    (hcr : env.cacheRaises = none)
    (hmiss : hitVal env.cache ((lookupStr (opts ++ bc) confModel).getD defaultModel) q = none)
    (hh : env.http = .responds 200 t (.ok (.obj kvs)))
    (hcand : lookupKey kvs "candidates" = some (.arr (cand :: rest)))
    (hcv : extractContent cand = .ok cv)
    (hmd : pyGetD cand "groundingMetadata" (.obj []) = .ok md)
    (hattrs : pyGetD md "groundingAttributions" (.arr []) = .ok (.arr attrs))
    (hwf : ∀ a ∈ attrs, wfAttr a)
    (hne : cv.truthy = true ∨ attrs.filterMap citeOf ≠ []) :
    (asyncCall env).result =
      .ok (.obj [("answer_summary", cv),
                 ("sources", .arr (citationsSpec attrs)),
                 ("instruction", .str responseInstruction)]) := by
  have hcs := collectSources_wf attrs hwf
  have hfin : (!cv.truthy && (attrs.filterMap citeOf).isEmpty) = false := by
    rcases hne with h | h
    · simp [h]
    · simp [List.isEmpty_iff, h]
  have hp : parseBody (.obj kvs) =
      .ok (.success (.obj [("answer_summary", cv),
                           ("sources", .arr (citationsSpec attrs))])) := by
    unfold parseBody
    rw [show pyGetD (.obj kvs) "candidates" (.arr []) = .ok (.arr (cand :: rest)) from by
      simp [pyGetD, hcand]]
    simp [JSON.truthy, pyIndex, hcv, hmd, hattrs, pyIter, hcs, citationsSpec]
    intro hcvf
    rcases hne with h | h
    · exact absurd (show cv.truthy = false from hcvf) (by simp [h])
    · rw [Ne, List.filterMap_eq_nil_iff] at h
      push_neg at h
      exact h
  rw [asyncCall_eq_runTry env bc opts q hd he hq hk,
      runTry_miss_200_success env _ q t (.obj kvs) _ hcr hmiss hh hp]
  simp [setKey, lookupKey]

/-- An attribution of the shape `{"web": {...}}` is well-formed. -/
theorem wfAttr_web (wl : List (String × JSON)) : wfAttr (.obj [("web", JSON.obj wl)]) :=
  ⟨_, rfl, fun w hw => by
    simp [lookupKey, List.find?] at hw
    exact ⟨wl, hw.symm⟩⟩

/-- Five valid web attributions, the second one missing its `title`. -/
def attrsC7 : List JSON :=
  [.obj [("web", .obj [("title", .str "t1"), ("uri", .str "u1")])],
   .obj [("web", .obj [("uri", .str "u2")])],
   .obj [("web", .obj [("title", .str "t3"), ("uri", .str "u3")])],
   .obj [("web", .obj [("title", .str "t4"), ("uri", .str "u4")])],
   .obj [("web", .obj [("title", .str "t5"), ("uri", .str "u5")])]]

/-- The first candidate of the C7 witness response. -/
def candC7 : JSON :=
  .obj [("content", .obj [("parts", .arr [.obj [("text", .str "ans")]])]),
        ("groundingMetadata", .obj [("groundingAttributions", .arr attrsC7)])]

/-- Environment delivering a 200 response with five web attributions. -/
def envC7 : Env :=
  mkEnv [] (.responds 200 "" (.ok (.obj [("candidates", .arr [candC7])])))

/-- Witness for C7: five valid attributions (the second missing `title`)
yield exactly the first three citations in original order, the second with
a null title and its url present. -/
theorem c7_sources_are_spec_citations_witness :
    (asyncCall envC7).result =
      .ok (.obj [("answer_summary", .str "ans"),
                 ("sources", .arr
                   [.obj [("title", .str "t1"), ("url", .str "u1")],
                    .obj [("title", .null), ("url", .str "u2")],
                    .obj [("title", .str "t3"), ("url", .str "u3")]]),
                 ("instruction", .str responseInstruction)]) := by
  have h := c7_sources_are_spec_citations envC7 [(confApiKey, "key123")] [] "qtest" ""
    [("candidates", .arr [candC7])] candC7 [] (.str "ans")
    (.obj [("groundingAttributions", .arr attrsC7)]) attrsC7
    rfl rfl rfl (by decide) rfl rfl rfl rfl rfl rfl rfl
    (by
      intro a ha
      simp only [attrsC7, List.mem_cons, List.not_mem_nil, or_false] at ha
      rcases ha with rfl | rfl | rfl | rfl | rfl <;> exact wfAttr_web _)
    (Or.inl rfl)
  exact h

/-- Claim C8 (amended): content extraction yields the empty string when the
first candidate's content is missing, its parts key is missing, or the
first part's text is missing — without reaching an error. -/
theorem c8_absent_content_yields_empty (cl : List (String × JSON))
    (h : lookupKey cl "content" = none
       ∨ (∃ col, lookupKey cl "content" = some (.obj col) ∧ lookupKey col "parts" = none)
       ∨ (∃ col pl rest, lookupKey cl "content" = some (.obj col)
            ∧ lookupKey col "parts" = some (.arr (.obj pl :: rest))
            ∧ lookupKey pl "text" = none)) :
    extractContent (.obj cl) = .ok (.str "") := by
  unfold extractContent
  rcases h with h | ⟨col, h1, h2⟩ | ⟨col, pl, rest, h1, h2, h3⟩
  · simp only [lookupKey] at h
    simp [pyGetD, lookupKey, pyIndex, h]
  · simp only [lookupKey] at h1 h2
    simp [pyGetD, lookupKey, pyIndex, h1, h2]
  · simp only [lookupKey] at h1 h2 h3
    simp [pyGetD, lookupKey, pyIndex, h1, h2, h3]

/-- Witness for amended C8: a candidate whose content lacks `parts`. -/
theorem c8_absent_content_yields_empty_witness :
    extractContent (.obj [("content", .obj [("role", .str "model")])]) = .ok (.str "") :=
  c8_absent_content_yields_empty [("content", .obj [("role", .str "model")])]
    (Or.inr (Or.inl ⟨[("role", .str "model")], rfl, rfl⟩))

/-- Environment delivering a 200 response whose first candidate has a
present-but-empty `parts` list. -/
def envC8 : Env :=
  mkEnv [] (.responds 200 ""
    (.ok (.obj [("candidates", .arr [.obj [("content", .obj [("parts", .arr [])])]])])))

/-- Counterexample to C8 as stated: with a present-but-empty `parts` list
the extraction indexes `[0]` into an empty list; the `IndexError` reaches
the blanket handler and the call yields an error return, not the empty
string. -/
theorem c8_counterexample_empty_parts_list :
    (asyncCall envC8).result =
      .ok (.obj [("error", .str (googleErrMsg "IndexError: list index out of range"))]) := by
  rfl

/-- Appending the instruction field to a freshly built summary object. -/
theorem setKey_summary (a : JSON) (srcs : List JSON) (v : JSON) :
    setKey [("answer_summary", a), ("sources", .arr srcs)] "instruction" v =
      [("answer_summary", a), ("sources", .arr srcs), ("instruction", v)] := by
  simp [setKey]

/-- Master classification: when configuration reading and tool-argument
extraction succeed, and any cache hit is a stored summary object, the call
returns (never raises) one of the three shapes: error, no-information, or
wrapped summary. -/
theorem asyncCall_classified (env : Env) (bc opts : List (String × String)) (q : String)
    (hd : env.domainConfig = some bc) (he : env.entryOptions = some opts)
    (hq : lookupStr env.toolArgs "query" = some q)
    (hcache : ∀ v, hitVal env.cache ((lookupStr (opts ++ bc) confModel).getD defaultModel) q
        = some v → isSummaryShape v) :
    ∃ j, (asyncCall env).result = .ok j ∧
      (isErrorShape j ∨ isResultsShape j ∨ isWrappedSummary j) := by
  by_cases hk : (lookupStr (opts ++ bc) confApiKey).getD "" = ""
  · exact ⟨_, by rw [asyncCall_noKey env bc opts q hd he hq hk], Or.inl ⟨_, rfl⟩⟩
  · rw [asyncCall_eq_runTry env bc opts q hd he hq hk]
    cases hcr : env.cacheRaises with
    | some msg =>
      exact ⟨_, by rw [runTry_cacheRaises env _ q msg hcr], Or.inl ⟨_, rfl⟩⟩
    | none =>
      cases hhit : hitVal env.cache ((lookupStr (opts ++ bc) confModel).getD defaultModel) q with
      | some v =>
        obtain ⟨a, srcs, rfl⟩ := hcache v hhit
        refine ⟨_, by rw [runTry_hit env _ q _ hcr hhit], Or.inr (Or.inr ⟨a, srcs, ?_⟩)⟩
        rw [setKey_summary]
      | none =>
        cases hh : env.http with
        | raises msg =>
          exact ⟨_, by rw [runTry_miss_raises env _ q msg hcr hhit hh], Or.inl ⟨_, rfl⟩⟩
        | responds c t b =>
          by_cases hc : c = 200
          · subst hc
            cases b with
            | error msg =>
              exact ⟨_, by rw [runTry_miss_200_jsonError env _ q t msg hcr hhit hh],
                Or.inl ⟨_, rfl⟩⟩
            | ok data =>
              cases hp : parseBody data with
              | error e =>
                exact ⟨_, by rw [runTry_miss_200_parseError env _ q t e data hcr hhit hh hp],
                  Or.inl ⟨_, rfl⟩⟩
              | ok r =>
                rcases parseBody_ok_shapes data r hp with ⟨s, rfl⟩ | ⟨a, srcs, rfl⟩
                · exact ⟨_, by rw [runTry_miss_200_noInfo env _ q t data _ hcr hhit hh hp],
                    Or.inr (Or.inl ⟨s, rfl⟩)⟩
                · refine ⟨_, by rw [runTry_miss_200_success env _ q t data _ hcr hhit hh hp],
                    Or.inr (Or.inr ⟨a, srcs, ?_⟩)⟩
                  rw [setKey_summary]
          · exact ⟨_, by rw [runTry_miss_status env _ q t c b hcr hhit hh hc],
              Or.inl ⟨_, rfl⟩⟩

/-- Claim C1 (amended): whenever configuration reading and tool-argument
extraction (the code before the `try` block) succeed and cache hits hold
stored results, `async_call` returns — without raising — a well-formed
ToolResult shape, whatever the cache layer, the HTTP call, or response
parsing do, including when they throw. -/
theorem c1_invoke_returns_wellformed (env : Env) (bc opts : List (String × String))
    (q : String)
    (hd : env.domainConfig = some bc) (he : env.entryOptions = some opts)
    (hq : lookupStr env.toolArgs "query" = some q)
    (hcache : ∀ v, hitVal env.cache ((lookupStr (opts ++ bc) confModel).getD defaultModel) q
        = some v → isSummaryShape v) :
    ∃ j, (asyncCall env).result = .ok j ∧ wellFormedToolResult j := by
  obtain ⟨j, hj, hs⟩ := asyncCall_classified env bc opts q hd he hq hcache
  refine ⟨j, hj, ?_⟩
  rcases hs with h | h | h
  · exact Or.inl h
  · exact Or.inr (Or.inl h)
  · exact Or.inr (Or.inr (Or.inr h))

/-- Witness for amended C1: a network failure still returns a well-formed
shape. -/
theorem c1_invoke_returns_wellformed_witness :
    ∃ j, (asyncCall (mkEnv [] (.raises "network down"))).result = .ok j ∧
      wellFormedToolResult j :=
  c1_invoke_returns_wellformed (mkEnv [] (.raises "network down"))
    [(confApiKey, "key123")] [] "qtest" rfl rfl rfl
    (by intro v hv; simp [hitVal, cacheGet, mkEnv] at hv)

/-- Environment where `hass.data[DOMAIN]` raises `KeyError` (integration
data absent). -/
def envRaisesConfig : Env :=
  { domainConfig := none, entryOptions := some [], toolArgs := [("query", "q")],
    cacheRaises := none, cache := [], http := .raises "unreachable" }

/-- Counterexample to C1 as stated: configuration reading happens before
the `try` block, so its exception propagates to the caller — the
invocation raises instead of returning a ToolResult. -/
theorem c1_counterexample_config_read_raises :
    (asyncCall envRaisesConfig).result = .error "KeyError: DOMAIN not in hass.data" := rfl

/-- Claim C2 (amended): every success return — cache hit or miss — carries the
non-empty fixed `instruction` field; no-results returns and error returns
do not carry it. -/
theorem c2_instruction_on_success_only (env : Env) (bc opts : List (String × String))
    (q : String) (j : JSON)
    (hd : env.domainConfig = some bc) (he : env.entryOptions = some opts)
    (hq : lookupStr env.toolArgs "query" = some q)
    (hcache : ∀ v, hitVal env.cache ((lookupStr (opts ++ bc) confModel).getD defaultModel) q
        = some v → isSummaryShape v)
    (hj : (asyncCall env).result = .ok j) :
    (j.hasKey "answer_summary" = true →
      j.getKey? "instruction" = some (.str responseInstruction) ∧
        responseInstruction ≠ "") ∧
    (j.hasKey "results" = true ∨ j.hasKey "error" = true →
      j.hasKey "instruction" = false) := by
  obtain ⟨j', hj', hs⟩ := asyncCall_classified env bc opts q hd he hq hcache
  rw [hj] at hj'
  injection hj' with hjj
  subst hjj
  rcases hs with ⟨s, rfl⟩ | ⟨s, rfl⟩ | ⟨a, srcs, rfl⟩
  · constructor
    · intro hkey
      simp [JSON.hasKey] at hkey
    · intro _
      simp [JSON.hasKey]
  · constructor
    · intro hkey
      simp [JSON.hasKey] at hkey
    · intro _
      simp [JSON.hasKey]
  · constructor
    · intro _
      exact ⟨by simp [JSON.getKey?, lookupKey], responseInstruction_ne_empty⟩
    · intro hkey
      rcases hkey with hkey | hkey <;> simp [JSON.hasKey] at hkey

/-- A single-candidate 200 response body used by the C2 witness. -/
def dataC2w : JSON :=
  .obj [("candidates", .arr
    [.obj [("content", .obj [("parts", .arr [.obj [("text", .str "ans")]])]),
           ("groundingMetadata", .obj [("groundingAttributions", .arr
             [.obj [("web", .obj [("title", .str "t1"), ("uri", .str "u1")])]])])]])]

/-- The wrapped summary returned for `dataC2w`. -/
def resC2w : JSON :=
  .obj [("answer_summary", .str "ans"),
        ("sources", .arr [.obj [("title", .str "t1"), ("url", .str "u1")]]),
        ("instruction", .str responseInstruction)]

/-- Witness for amended C2: a concrete successful (cache-miss) call whose
result carries `answer_summary` together with the instruction field. -/
theorem c2_instruction_on_success_only_witness :
    resC2w.getKey? "instruction" = some (.str responseInstruction) ∧
      responseInstruction ≠ "" := by
  have h := c2_instruction_on_success_only
    (mkEnv [] (.responds 200 "" (.ok dataC2w)))
    [(confApiKey, "key123")] [] "qtest" resC2w
    rfl rfl rfl
    (by intro v hv; simp [hitVal, cacheGet, mkEnv] at hv)
    rfl
  exact h.1 rfl

/-- Environment delivering a 200 response with an empty candidate list. -/
def envC2 : Env := mkEnv [] (.responds 200 "" (.ok (.obj [("candidates", .arr [])])))

/-- Counterexample to C2 as stated: the no-results return is not passed
through `wrap_response`, so it carries no `instruction` field. -/
theorem c2_counterexample_no_results_unwrapped :
    (asyncCall envC2).result = .ok (.obj [("results", .str noInfoCandidates)]) ∧
    (JSON.obj [("results", .str noInfoCandidates)]).hasKey "instruction" = false :=
  ⟨rfl, rfl⟩
